import Mathlib

/-!
Shallow embedding of the geospatial core of `nanoos/nvs.py` (class `NVS`):
UTM zone selection, the three distance methods (haversine, euclidian,
manhattan), bearing, watch-circle containment, and the asset-metadata
filtering that composes them.

Modelling conventions:
* Python floats that enter as arguments or stored record fields are
  rationals (`ℚ`); the numerical formulas are idealised over `ℝ`.
* A Python exception (e.g. an unbound local after an unmatched method
  selector) is `none`; a normally returned value is `some _`.
* The external `pyproj` UTM projection is an abstract parameter
  `proj : ℕ → ℚ → ℚ → ℝ × ℝ` taking the zone and the (lon, lat) pair,
  in the argument order the source uses at the call site.
* The remote provider response for `opt=meta` in the `success = True`
  case is an explicit `List Asset` argument (`content['result']`).
-/

namespace NVS

open Real

/-- Python `int()` applied to a float: truncation toward zero. -/
noncomputable def pyInt (x : ℝ) : ℤ := if 0 ≤ x then ⌊x⌋ else ⌈x⌉

/-- Python `%` on floats: `x - m * floor (x / m)`, the sign following the divisor. -/
noncomputable def pymod (x m : ℝ) : ℝ := x - m * (⌊x / m⌋ : ℤ)

/-- Python `math.atan2` (the C `atan2` convention) over idealised reals. -/
noncomputable def atan2 (y x : ℝ) : ℝ :=
  if 0 < x then arctan (y / x)
  else if x < 0 then (if 0 ≤ y then arctan (y / x) + π else arctan (y / x) - π)
  else if 0 < y then π / 2
  else if y < 0 then -(π / 2)
  else 0

/-- Embedding of `NVS._set_projection`: the UTM zone chosen from the ship longitude by the
`if / elif / elif` chain. No branch of the source has an `else`, so an
unmatched longitude would leave `zone` unbound (an exception, `none`). -/
def set_projection (ship_lon : ℚ) : Option ℕ :=
  if ship_lon ≥ -126 then some 10
  else if -129 < ship_lon ∧ ship_lon < -126 then some 9
  else if ship_lon ≤ -129 then some 8
  else none

/-- Embedding of `NVS._get_haversine_distance`: great-circle distance on a sphere of
radius `R = 6371e3` m, untruncated (the `self.haversine` float). -/
noncomputable def haversine_distance (ship_lat ship_lon asset_lat asset_lon : ℚ) : ℝ :=
  let R : ℝ := 6371000
  let phi_ship : ℝ := (ship_lat : ℝ) * π / 180
  let phi_asset : ℝ := (asset_lat : ℝ) * π / 180
  let delta_phi : ℝ := ((asset_lat : ℝ) - (ship_lat : ℝ)) * π / 180
  let delta_lambda : ℝ := ((asset_lon : ℝ) - (ship_lon : ℝ)) * π / 180
  let a : ℝ := Real.sin (delta_phi / 2) * Real.sin (delta_phi / 2) +
    Real.cos phi_ship * Real.cos phi_asset * Real.sin (delta_lambda / 2) *
    Real.sin (delta_lambda / 2)
  let c : ℝ := 2 * atan2 (Real.sqrt a) (Real.sqrt (1 - a))
  R * c

/-- Shared steps of `NVS._get_manhattan_distance`, also used by the
euclidian method: projected coordinate deltas `(manhattan_x, manhattan_y)` between asset and
ship, after `_set_projection` on the ship longitude. -/
noncomputable def manhattan_parts (proj : ℕ → ℚ → ℚ → ℝ × ℝ)
    (ship_lat ship_lon asset_lat asset_lon : ℚ) : Option (ℝ × ℝ) :=
  (set_projection ship_lon).map (fun zone =>
    let s := proj zone ship_lon ship_lat
    let a := proj zone asset_lon asset_lat
    (a.1 - s.1, a.2 - s.2))

/-- Embedding of `NVS._get_manhattan_distance`: `abs(manhattan_x) + abs(manhattan_y)`,
untruncated. -/
noncomputable def manhattan_distance (proj : ℕ → ℚ → ℚ → ℝ × ℝ)
    (ship_lat ship_lon asset_lat asset_lon : ℚ) : Option ℝ :=
  (manhattan_parts proj ship_lat ship_lon asset_lat asset_lon).map
    (fun p => |p.1| + |p.2|)

/-- Embedding of `NVS._get_euclidian_distance`: `sqrt(manhattan_x**2 + manhattan_y**2)`,
untruncated. -/
noncomputable def euclidian_distance (proj : ℕ → ℚ → ℚ → ℝ × ℝ)
    (ship_lat ship_lon asset_lat asset_lon : ℚ) : Option ℝ :=
  (manhattan_parts proj ship_lat ship_lon asset_lat asset_lon).map
    (fun p => Real.sqrt (p.1 ^ 2 + p.2 ^ 2))

/-- The method dispatch `if method == "haversine" ... elif ... elif ...`
shared verbatim by `get_distance_from_ship` and `_is_in_range`; an
unmatched selector leaves the local distance variable unbound (`none`). -/
noncomputable def asset_distance (proj : ℕ → ℚ → ℚ → ℝ × ℝ)
    (ship_lat ship_lon asset_lat asset_lon : ℚ) (method : String) : Option ℝ :=
  if method = "haversine" then
    some (haversine_distance ship_lat ship_lon asset_lat asset_lon)
  else if method = "euclidian" then
    euclidian_distance proj ship_lat ship_lon asset_lat asset_lon
  else if method = "manhattan" then
    manhattan_distance proj ship_lat ship_lon asset_lat asset_lon
  else none

/-- Embedding of `NVS.get_distance_from_ship`: the selected distance, then `int(distance)`. -/
noncomputable def get_distance_from_ship (proj : ℕ → ℚ → ℚ → ℝ × ℝ)
    (ship_lat ship_lon asset_lat asset_lon : ℚ) (method : String) : Option ℤ :=
  (asset_distance proj ship_lat ship_lon asset_lat asset_lon method).map pyInt

/-- Embedding of `NVS.get_bearing_from_ship`: forward azimuth, `% 360`, then `int(...)`. -/
noncomputable def get_bearing_from_ship
    (ship_lat ship_lon asset_lat asset_lon : ℚ) : ℤ :=
  let delta_lambda : ℝ := ((asset_lon : ℝ) - (ship_lon : ℝ)) * π / 180
  let phi_ship : ℝ := (ship_lat : ℝ) * π / 180
  let phi_asset : ℝ := (asset_lat : ℝ) * π / 180
  let y : ℝ := Real.sin delta_lambda * Real.cos phi_asset
  let x : ℝ := Real.cos phi_ship * Real.sin phi_asset -
    Real.sin phi_ship * Real.cos phi_asset * Real.cos delta_lambda
  let bearing : ℝ := pymod (atan2 y x * 180 / π) 360
  pyInt bearing

/-- Embedding of `NVS._is_in_range`: recomputes the selected distance for the current
ship/asset pair and compares the untruncated float against the watch-circle
radius `distance`. -/
noncomputable def is_in_range (proj : ℕ → ℚ → ℚ → ℝ × ℝ)
    (ship_lat ship_lon asset_lat asset_lon : ℚ) (distance : ℚ)
    (method : String) : Option Bool :=
  (asset_distance proj ship_lat ship_lon asset_lat asset_lon method).map
    (fun d => if d ≤ (distance : ℝ) then true else false)

/-- Provider asset metadata record, restricted to the fields the filtering
code reads (`lat`, `lon`, `deploy_status`), plus `name` to tell fixtures
apart the way distinct dicts are distinct. -/
structure Asset where
  lat : ℚ
  lon : ℚ
  deploy_status : String
  name : String
  deriving DecidableEq

/-- Does the needle occur at the head of the haystack? (helper for the
Python substring test `needle in haystack`). -/
def leadMatch : List Char → List Char → Bool
  | [], _ => true
  | _ :: _, [] => false
  | a :: as, b :: bs => a == b && leadMatch as bs

/-- Does the needle occur anywhere in the haystack? -/
def hasSub (needle : List Char) : List Char → Bool
  | [] => leadMatch needle []
  | c :: rest => leadMatch needle (c :: rest) || hasSub needle rest

/-- Python `needle in haystack` on strings: substring containment. -/
def strContains (needle hay : String) : Bool := hasSub needle.data hay.data

/-- The `for asset in assets: if "offline" in asset['deploy_status']:
assets.remove(asset)` loop of `get_all_assets_metadata`, with Python's
`for` semantics made explicit: an internal index `i` advances by one per
iteration over the list being mutated, and `list.remove` deletes the first
element equal to its argument. -/
def pyRemoveLoop (l : List Asset) (i : ℕ) : List Asset :=
  match hx : l[i]? with
  | none => l
  | some a =>
    if strContains "offline" a.deploy_status then
      pyRemoveLoop (l.erase a) (i + 1)
    else
      pyRemoveLoop l (i + 1)
termination_by l.length - i
decreasing_by
  · have ha : a ∈ l := List.getElem?_mem hx
    have hm : (l.erase a).length + 1 = l.length := List.length_erase_add_one ha
    have hi : i < l.length := by
      rcases List.getElem?_eq_some.mp hx with ⟨h1, _⟩
      exact h1
    omega
  · have hi : i < l.length := by
      rcases List.getElem?_eq_some.mp hx with ⟨h1, _⟩
      exact h1
    omega

/-- Embedding of `NVS.get_all_assets_metadata` in the provider-success case: the
`content['result']` list, mutated by the offline-removal loop when
`online is True`. -/
def get_all_assets_metadata (assets : List Asset) (online : Bool) : List Asset :=
  if online then pyRemoveLoop assets 0 else assets

/-- The accumulation loop of `get_nearby_assets_metadata`: each asset's
coordinates are fed to `_is_in_range`; `none` (an exception inside the
loop) aborts the whole call. -/
noncomputable def nearbyLoop (proj : ℕ → ℚ → ℚ → ℝ × ℝ)
    (ship_lat ship_lon distance : ℚ) (method : String) :
    List Asset → Option (List Asset)
  | [] => some []
  | a :: rest =>
    match is_in_range proj ship_lat ship_lon a.lat a.lon distance method with
    | none => none
    | some b =>
      (nearbyLoop proj ship_lat ship_lon distance method rest).map
        (fun tl => if b then a :: tl else tl)

/-- Embedding of `NVS.get_nearby_assets_metadata` in the provider-success case. The
outer `Option` is exception-vs-return; the inner `Option` is the Python
return value: the source returns the value `None` when the `nearby` list
ends up empty, and the list itself otherwise. -/
noncomputable def get_nearby_assets_metadata (proj : ℕ → ℚ → ℚ → ℝ × ℝ)
    (assets : List Asset) (ship_lat ship_lon distance : ℚ)
    (method : String) (online : Bool) : Option (Option (List Asset)) :=
  let l := get_all_assets_metadata assets online
  match nearbyLoop proj ship_lat ship_lon distance method l with
  | none => none
  | some nearby => some (if nearby = [] then none else some nearby)

/-- A concrete projection stand-in for closed instances: every point maps
to the planar origin. -/
def proj0 : ℕ → ℚ → ℚ → ℝ × ℝ := fun _ _ _ => (0, 0)

/-- The great-circle distance exactly as the spec words it, for comparison
with the source translation `haversine_distance`: haversine formula on a
sphere of radius 6,371,000 m, `a = sin²(Δφ/2) + cosφ1·cosφ2·sin²(Δλ/2)`
with half-angle deltas converted to radians, distance
`2·R·atan2(√a, √(1−a))`, untruncated. -/
noncomputable def haversineSpec (ship_lat ship_lon asset_lat asset_lon : ℚ) : ℝ :=
  let a : ℝ := Real.sin (((asset_lat : ℝ) - (ship_lat : ℝ)) * π / 180 / 2) ^ 2 +
    Real.cos ((ship_lat : ℝ) * π / 180) * Real.cos ((asset_lat : ℝ) * π / 180) *
    Real.sin (((asset_lon : ℝ) - (ship_lon : ℝ)) * π / 180 / 2) ^ 2
  2 * 6371000 * atan2 (Real.sqrt a) (Real.sqrt (1 - a))

/-- Unfolding equation for `pyRemoveLoop`: the loop ends when the index is
past the end of the (possibly shortened) list. -/
theorem pyRemoveLoop_oob (l : List Asset) (i : ℕ) (hx : l[i]? = none) :
    pyRemoveLoop l i = l := by
  rw [pyRemoveLoop]
  split
  · rfl
  · rename_i a heq
    rw [hx] at heq
    exact absurd heq (by simp)

/-- Unfolding equation for `pyRemoveLoop`: an offline asset at the current
index is removed and the index still advances (the Python skip-on-remove
behaviour). -/
theorem pyRemoveLoop_hit (l : List Asset) (i : ℕ) (a : Asset) (hx : l[i]? = some a)
    (ho : strContains "offline" a.deploy_status = true) :
    pyRemoveLoop l i = pyRemoveLoop (l.erase a) (i + 1) := by
  conv_lhs => rw [pyRemoveLoop]
  split
  · rename_i heq
    rw [hx] at heq
    exact absurd heq (by simp)
  · rename_i b heq
    rw [hx] at heq
    obtain rfl : b = a := by injection heq with h1; exact h1.symm
    rw [if_pos ho]

/-- Unfolding equation for `pyRemoveLoop`: a non-offline asset is kept. -/
theorem pyRemoveLoop_miss (l : List Asset) (i : ℕ) (a : Asset) (hx : l[i]? = some a)
    (ho : strContains "offline" a.deploy_status = false) :
    pyRemoveLoop l i = pyRemoveLoop l (i + 1) := by
  conv_lhs => rw [pyRemoveLoop]
  split
  · rename_i heq
    rw [hx] at heq
    exact absurd heq (by simp)
  · rename_i b heq
    rw [hx] at heq
    obtain rfl : b = a := by injection heq with h1; exact h1.symm
    rw [if_neg (by simp [ho])]

/-- The zone if-chain of `_set_projection` is exhaustive: every longitude
gets a zone, so `Proj` is always constructed. -/
theorem set_projection_total (lon : ℚ) : ∃ z, set_projection lon = some z := by
  unfold set_projection
  rcases le_or_lt (-126 : ℚ) lon with h | h
  · exact ⟨10, by rw [if_pos h]⟩
  · rcases lt_or_le (-129 : ℚ) lon with h2 | h2
    · exact ⟨9, by rw [if_neg (not_le.mpr h), if_pos ⟨h2, h⟩]⟩
    · refine ⟨8, ?_⟩
      rw [if_neg (not_le.mpr h), if_neg ?hn, if_pos h2]
      rintro ⟨h3, _⟩
      exact absurd h2 (not_le.mpr h3)

/-- Python truncation of 0 is 0. -/
theorem pyInt_zero : pyInt 0 = 0 := by simp [pyInt]

/-- Python float modulo of 0 by 360 is 0. -/
theorem pymod_zero : pymod 0 360 = 0 := by
  simp [pymod]

/-- Value `atan2 0 x = 0` for positive `x`. -/
theorem atan2_zero_of_pos (x : ℝ) (hx : 0 < x) : atan2 0 x = 0 := by
  simp [atan2, if_pos hx]

/-- Value `atan2 0 x = π` for negative `x`. -/
theorem atan2_zero_of_neg (x : ℝ) (hx : x < 0) : atan2 0 x = π := by
  have h1 : ¬ (0 : ℝ) < x := not_lt.mpr hx.le
  simp [atan2, if_neg h1, if_pos hx]

/-- Value `atan2 0 0 = 0` (the Python convention for coincident arguments). -/
theorem atan2_zero_zero : atan2 0 0 = 0 := by
  simp [atan2]

/-- On the open right half-plane, `atan2` of a sine/cosine pair recovers
the angle. -/
theorem atan2_sin_cos (t : ℝ) (h1 : -(π / 2) < t) (h2 : t < π / 2) :
    atan2 (Real.sin t) (Real.cos t) = t := by
  have hc : 0 < Real.cos t := Real.cos_pos_of_mem_Ioo ⟨h1, h2⟩
  rw [atan2, if_pos hc, ← Real.tan_eq_sin_div_cos, Real.arctan_tan h1 h2]

/-- The haversine distance between a point and itself is exactly 0. -/
theorem haversine_self (lat lon : ℚ) : haversine_distance lat lon lat lon = 0 := by
  simp [haversine_distance, atan2_zero_of_pos 1 one_pos, sub_self]

/-- Dispatch: the haversine branch of the method chain. -/
theorem asset_distance_haversine (proj : ℕ → ℚ → ℚ → ℝ × ℝ)
    (ship_lat ship_lon asset_lat asset_lon : ℚ) :
    asset_distance proj ship_lat ship_lon asset_lat asset_lon "haversine" =
      some (haversine_distance ship_lat ship_lon asset_lat asset_lon) := rfl

/-- Dispatch: the euclidian branch of the method chain. -/
theorem asset_distance_euclidian (proj : ℕ → ℚ → ℚ → ℝ × ℝ)
    (ship_lat ship_lon asset_lat asset_lon : ℚ) :
    asset_distance proj ship_lat ship_lon asset_lat asset_lon "euclidian" =
      euclidian_distance proj ship_lat ship_lon asset_lat asset_lon := rfl

/-- Dispatch: the manhattan branch of the method chain. -/
theorem asset_distance_manhattan (proj : ℕ → ℚ → ℚ → ℝ × ℝ)
    (ship_lat ship_lon asset_lat asset_lon : ℚ) :
    asset_distance proj ship_lat ship_lon asset_lat asset_lon "manhattan" =
      manhattan_distance proj ship_lat ship_lon asset_lat asset_lon := rfl

/-- The projected deltas of a point against itself are (0, 0). -/
theorem manhattan_parts_self (proj : ℕ → ℚ → ℚ → ℝ × ℝ) (lat lon : ℚ) :
    ∃ z, set_projection lon = some z ∧
      manhattan_parts proj lat lon lat lon = some (0, 0) := by
  obtain ⟨z, hz⟩ := set_projection_total lon
  exact ⟨z, hz, by simp [manhattan_parts, hz]⟩

/-- Rearrangement shape of the haversine result: the source computes
`R * (2 * atan2 ...)`, the spec writes `2 * R * atan2 ...`. -/
theorem hav_assoc (x y : ℝ) (h : x = y) :
    6371000 * (2 * atan2 (Real.sqrt x) (Real.sqrt (1 - x))) =
      2 * 6371000 * atan2 (Real.sqrt y) (Real.sqrt (1 - y)) := by
  subst h; ring

/-- The source haversine equals the spec's formula, untruncated. -/
theorem haversine_eq_spec (ship_lat ship_lon asset_lat asset_lon : ℚ) :
    haversine_distance ship_lat ship_lon asset_lat asset_lon =
      haversineSpec ship_lat ship_lon asset_lat asset_lon := by
  simp only [haversine_distance, haversineSpec]
  exact hav_assoc _ _ (by ring)

/-- Range fact: `atan2` of a nonnegative first argument lies in `[0, π]`; in
particular it is nonnegative. -/
theorem atan2_nonneg (y x : ℝ) (hy : 0 ≤ y) : 0 ≤ atan2 y x := by
  have harct : ∀ w : ℝ, 0 ≤ w → 0 ≤ Real.arctan w := by
    intro w hw
    rw [← Real.arctan_zero]
    exact Real.arctan_strictMono.monotone hw
  rw [atan2]
  rcases lt_trichotomy (0 : ℝ) x with hx | hx | hx
  · rw [if_pos hx]
    exact harct _ (div_nonneg hy hx.le)
  · rw [if_neg (by rw [← hx]; exact lt_irrefl 0), if_neg (by rw [← hx]; exact lt_irrefl 0)]
    rcases lt_or_le 0 y with hy2 | hy2
    · rw [if_pos hy2]; positivity
    · rw [if_neg (not_lt.mpr hy2), if_neg (not_lt.mpr hy)]
  · rw [if_neg (by exact not_lt.mpr hx.le), if_pos hx, if_pos hy]
    have := Real.neg_pi_div_two_lt_arctan (y / x)
    have hpi := Real.pi_pos
    linarith
/-- Shape fact: the haversine result form is nonnegative for any `a`. -/
theorem hav_form_nonneg (a : ℝ) :
    0 ≤ 6371000 * (2 * atan2 (Real.sqrt a) (Real.sqrt (1 - a))) := by
  have h := atan2_nonneg (Real.sqrt a) (Real.sqrt (1 - a)) (Real.sqrt_nonneg a)
  linarith

/-- The untruncated haversine distance is nonnegative. -/
theorem haversine_nonneg (ship_lat ship_lon asset_lat asset_lon : ℚ) :
    0 ≤ haversine_distance ship_lat ship_lon asset_lat asset_lon := by
  simp only [haversine_distance]
  exact hav_form_nonneg _

/-- Every distance the method chain can produce is nonnegative. -/
theorem asset_distance_nonneg (proj : ℕ → ℚ → ℚ → ℝ × ℝ)
    (ship_lat ship_lon asset_lat asset_lon : ℚ) (method : String) (d : ℝ)
    (hd : asset_distance proj ship_lat ship_lon asset_lat asset_lon method = some d) :
    0 ≤ d := by
  rw [asset_distance] at hd
  split_ifs at hd
  · obtain rfl : haversine_distance ship_lat ship_lon asset_lat asset_lon = d :=
      Option.some.inj hd
    exact haversine_nonneg ship_lat ship_lon asset_lat asset_lon
  · rw [euclidian_distance] at hd
    rcases Option.map_eq_some'.mp hd with ⟨p, _, rfl⟩
    exact Real.sqrt_nonneg _
  · rw [manhattan_distance] at hd
    rcases Option.map_eq_some'.mp hd with ⟨p, _, rfl⟩
    positivity

/-- Python truncation below its nonnegative argument. -/
theorem pyInt_le_self (x : ℝ) (h0 : 0 ≤ x) : (pyInt x : ℝ) ≤ x := by
  rw [pyInt, if_pos h0]
  exact Int.floor_le x

/-- Python truncation is monotone on nonnegative inputs. -/
theorem pyInt_mono_of_nonneg (x y : ℝ) (h0 : 0 ≤ x) (hxy : x ≤ y) :
    pyInt x ≤ pyInt y := by
  rw [pyInt, if_pos h0, pyInt, if_pos (h0.trans hxy)]
  exact Int.floor_le_floor hxy

/-- Straight-line planar distance never exceeds taxicab distance. -/
theorem sqrt_sq_add_sq_le_abs_add_abs (u v : ℝ) :
    Real.sqrt (u ^ 2 + v ^ 2) ≤ |u| + |v| := by
  have h1 : u ^ 2 + v ^ 2 ≤ (|u| + |v|) ^ 2 := by
    nlinarith [sq_abs u, sq_abs v, mul_nonneg (abs_nonneg u) (abs_nonneg v)]
  calc Real.sqrt (u ^ 2 + v ^ 2) ≤ Real.sqrt ((|u| + |v|) ^ 2) := Real.sqrt_le_sqrt h1
    _ = |u| + |v| := Real.sqrt_sq (by positivity)

/-- Value `atan2 y 0 = π/2` for positive `y`. -/
theorem atan2_pos_zero (y : ℝ) (hy : 0 < y) : atan2 y 0 = π / 2 := by
  rw [atan2, if_neg (lt_irrefl 0), if_neg (lt_irrefl 0), if_pos hy]

/-- Python float modulo by 360 is the identity on `[0, 360)`. -/
theorem pymod_small (x : ℝ) (h0 : 0 ≤ x) (h1 : x < 360) : pymod x 360 = x := by
  rw [pymod]
  have hf : ⌊x / 360⌋ = 0 := by
    rw [Int.floor_eq_zero_iff]
    constructor
    · positivity
    · rw [div_lt_one (by norm_num : (0:ℝ) < 360)]; exact h1
  rw [hf]
  simp

/-- Python float modulo by 360 adds 360 on `[-360, 0)` (sign of divisor). -/
theorem pymod_neg_small (x : ℝ) (h0 : -360 ≤ x) (h1 : x < 0) :
    pymod x 360 = x + 360 := by
  rw [pymod]
  have hf : ⌊x / 360⌋ = -1 := by
    rw [Int.floor_eq_iff]
    constructor
    · push_cast
      linarith
    · push_cast
      have : x / 360 < 0 := div_neg_of_neg_of_pos h1 (by norm_num)
      linarith
  rw [hf]
  push_cast
  ring

/-- Python truncation of an exact integer value is that integer. -/
theorem pyInt_intCast (z : ℤ) : pyInt (z : ℝ) = z := by
  rw [pyInt]
  split_ifs <;> simp

/-- Unfolded form of `get_bearing_from_ship` (pure zeta reduction of the
source lets). -/
theorem get_bearing_eval (ship_lat ship_lon asset_lat asset_lon : ℚ) :
    get_bearing_from_ship ship_lat ship_lon asset_lat asset_lon =
      pyInt (pymod (atan2
        (Real.sin (((asset_lon : ℝ) - (ship_lon : ℝ)) * π / 180) *
          Real.cos ((asset_lat : ℝ) * π / 180))
        (Real.cos ((ship_lat : ℝ) * π / 180) * Real.sin ((asset_lat : ℝ) * π / 180) -
          Real.sin ((ship_lat : ℝ) * π / 180) * Real.cos ((asset_lat : ℝ) * π / 180) *
          Real.cos (((asset_lon : ℝ) - (ship_lon : ℝ)) * π / 180)) * 180 / π) 360) := rfl

/-- The bearing of a point from itself is 0 (`atan2(0, 0) = 0`). -/
theorem bearing_self (lat lon : ℚ) : get_bearing_from_ship lat lon lat lon = 0 := by
  rw [get_bearing_eval]
  simp only [sub_self, zero_mul, zero_div, Real.sin_zero, Real.cos_zero, mul_one]
  rw [show Real.cos ((lat : ℝ) * π / 180) * Real.sin ((lat : ℝ) * π / 180) -
      Real.sin ((lat : ℝ) * π / 180) * Real.cos ((lat : ℝ) * π / 180) = 0 from by ring]
  rw [atan2_zero_zero]
  simp only [zero_mul, zero_div]
  rw [pymod_zero, pyInt_zero]

/-- Exact value of the source haversine for one degree of longitude along
the equator. -/
theorem haversine_equator_one_degree :
    haversine_distance 0 0 0 1 = 6371000 * (π / 180) := by
  have hpi := Real.pi_pos
  have ht0 : (0 : ℝ) ≤ π / 180 / 2 := by positivity
  have htpi : π / 180 / 2 ≤ π := by linarith
  have htlt : π / 180 / 2 < π / 2 := by linarith
  have htgt : -(π / 2) < π / 180 / 2 := by linarith
  have hcos : 0 ≤ Real.cos (π / 180 / 2) :=
    Real.cos_nonneg_of_mem_Icc ⟨by linarith, by linarith⟩
  simp only [haversine_distance]
  norm_num
  rw [show Real.sin (π / 180 / 2) * Real.sin (π / 180 / 2) =
      Real.sin (π / 180 / 2) ^ 2 from by ring]
  rw [Real.sqrt_sq (Real.sin_nonneg_of_nonneg_of_le_pi ht0 htpi)]
  rw [← Real.cos_sq']
  rw [Real.sqrt_sq hcos]
  rw [atan2_sin_cos _ htgt htlt]
  ring

/-- Numeric range of the equator one-degree haversine distance: it lies
strictly between 111194 and 111195 metres. -/
theorem haversine_equator_bounds :
    111194 < haversine_distance 0 0 0 1 ∧ haversine_distance 0 0 0 1 < 111195 := by
  rw [haversine_equator_one_degree]
  have h1 : (3.141592 : ℝ) < π := Real.pi_gt_d6
  have h2 : π < (3.141593 : ℝ) := Real.pi_lt_d6
  norm_num at h1 h2
  constructor
  · nlinarith
  · nlinarith

/-- C1: zone 10 for longitude ≥ −126, zone 9 strictly between −129 and
−126, zone 8 for longitude ≤ −129; the boundaries −126.0 and −129.0 land
in zones 10 and 8 respectively. -/
theorem zone_selection_correct (lon : ℚ) :
    (-126 ≤ lon → set_projection lon = some 10) ∧
    ((-129 < lon ∧ lon < -126) → set_projection lon = some 9) ∧
    (lon ≤ -129 → set_projection lon = some 8) ∧
    set_projection (-126) = some 10 ∧ set_projection (-129) = some 8 := by
  refine ⟨fun h => ?_, fun h => ?_, fun h => ?_, by decide, by decide⟩
  · simp only [set_projection, ge_iff_le, if_pos h]
  · have h1 : ¬ (-126 : ℚ) ≤ lon := not_le.mpr h.2
    simp only [set_projection, ge_iff_le, if_neg h1, if_pos h]
  · have h1 : ¬ (-126 : ℚ) ≤ lon := by linarith
    have h2 : ¬ ((-129 : ℚ) < lon ∧ lon < -126) := by
      rintro ⟨h3, _⟩; linarith
    simp only [set_projection, ge_iff_le, if_neg h1, if_neg h2, if_pos h]

/-- Witness for C1 at concrete longitudes in each zone, including the
spec's boundary probe −126.0001. -/
theorem zone_selection_correct_witness :
    set_projection (-124) = some 10 ∧
    set_projection (-1260001 / 10000) = some 9 ∧
    set_projection (-130) = some 8 :=
  ⟨(zone_selection_correct (-124)).1 (by norm_num),
   (zone_selection_correct (-1260001 / 10000)).2.1 (by norm_num),
   (zone_selection_correct (-130)).2.2.1 (by norm_num)⟩

/-- C8: with coincident ship and asset, `get_distance_from_ship` returns 0
under all three methods (for every projection), and `get_bearing_from_ship`
returns 0 by the `atan2(0, 0) = 0` convention. -/
theorem coincident_zero (proj : ℕ → ℚ → ℚ → ℝ × ℝ) (lat lon : ℚ) :
    get_distance_from_ship proj lat lon lat lon "haversine" = some 0 ∧
    get_distance_from_ship proj lat lon lat lon "euclidian" = some 0 ∧
    get_distance_from_ship proj lat lon lat lon "manhattan" = some 0 ∧
    get_bearing_from_ship lat lon lat lon = 0 := by
  obtain ⟨z, hz, hparts⟩ := manhattan_parts_self proj lat lon
  refine ⟨?_, ?_, ?_, ?_⟩
  · rw [get_distance_from_ship, asset_distance_haversine, haversine_self]
    simp [pyInt_zero]
  · rw [get_distance_from_ship, asset_distance_euclidian, euclidian_distance, hparts]
    norm_num [pyInt_zero]
  · rw [get_distance_from_ship, asset_distance_manhattan, manhattan_distance, hparts]
    norm_num [pyInt_zero]
  · exact bearing_self lat lon

/-- C5: the haversine branch of `get_distance_from_ship` returns exactly
the spec's `2·R·atan2(√a, √(1−a))` value with `R = 6,371,000` and
`a = sin²(Δφ/2) + cosφ1·cosφ2·sin²(Δλ/2)`, truncated to an integer with
the fractional part discarded. -/
theorem haversine_matches_spec (proj : ℕ → ℚ → ℚ → ℝ × ℝ)
    (ship_lat ship_lon asset_lat asset_lon : ℚ) :
    get_distance_from_ship proj ship_lat ship_lon asset_lat asset_lon "haversine" =
      some (pyInt (haversineSpec ship_lat ship_lon asset_lat asset_lon)) := by
  rw [get_distance_from_ship, asset_distance_haversine, Option.map_some',
    haversine_eq_spec]

/-- C9: an unrecognised method string leaves the result variable unbound,
so neither `get_distance_from_ship` nor `_is_in_range` produces a value. -/
theorem unknown_method_no_result (proj : ℕ → ℚ → ℚ → ℝ × ℝ)
    (ship_lat ship_lon asset_lat asset_lon r : ℚ) (method : String)
    (h1 : method ≠ "haversine") (h2 : method ≠ "euclidian")
    (h3 : method ≠ "manhattan") :
    get_distance_from_ship proj ship_lat ship_lon asset_lat asset_lon method = none ∧
    is_in_range proj ship_lat ship_lon asset_lat asset_lon r method = none := by
  have hd : asset_distance proj ship_lat ship_lon asset_lat asset_lon method = none := by
    rw [asset_distance, if_neg h1, if_neg h2, if_neg h3]
  rw [get_distance_from_ship, hd, is_in_range, hd]
  exact ⟨rfl, rfl⟩

/-- Witness for C9 at the concrete unmatched selector "geodesic". -/
theorem unknown_method_no_result_witness :
    get_distance_from_ship proj0 0 0 0 1 "geodesic" = none ∧
    is_in_range proj0 0 0 0 1 1 "geodesic" = none :=
  unknown_method_no_result proj0 0 0 0 1 1 "geodesic"
    (by decide) (by decide) (by decide)

/-- C10: for the same pair of points (and any projection), the euclidian
distance never exceeds the manhattan distance, including after the
integer truncation both undergo. -/
theorem euclidian_le_manhattan (proj : ℕ → ℚ → ℚ → ℝ × ℝ)
    (ship_lat ship_lon asset_lat asset_lon : ℚ) :
    ∃ e m : ℤ,
      get_distance_from_ship proj ship_lat ship_lon asset_lat asset_lon "euclidian" = some e ∧
      get_distance_from_ship proj ship_lat ship_lon asset_lat asset_lon "manhattan" = some m ∧
      e ≤ m := by
  obtain ⟨z, hz⟩ := set_projection_total ship_lon
  have hparts : manhattan_parts proj ship_lat ship_lon asset_lat asset_lon =
      some ((proj z asset_lon asset_lat).1 - (proj z ship_lon ship_lat).1,
        (proj z asset_lon asset_lat).2 - (proj z ship_lon ship_lat).2) := by
    rw [manhattan_parts, hz, Option.map_some']
  refine ⟨pyInt (Real.sqrt (((proj z asset_lon asset_lat).1 - (proj z ship_lon ship_lat).1) ^ 2 +
      ((proj z asset_lon asset_lat).2 - (proj z ship_lon ship_lat).2) ^ 2)),
    pyInt (|(proj z asset_lon asset_lat).1 - (proj z ship_lon ship_lat).1| +
      |(proj z asset_lon asset_lat).2 - (proj z ship_lon ship_lat).2|), ?_, ?_, ?_⟩
  · rw [get_distance_from_ship, asset_distance_euclidian, euclidian_distance, hparts,
      Option.map_some', Option.map_some']
  · rw [get_distance_from_ship, asset_distance_manhattan, manhattan_distance, hparts,
      Option.map_some', Option.map_some']
  · exact pyInt_mono_of_nonneg _ _ (Real.sqrt_nonneg _)
      (sqrt_sq_add_sq_le_abs_add_abs _ _)

/-- C2 counterexample: at ship (0,0), asset (0,1), radius 111194 and the
haversine method, the public distance 111194 is ≤ the radius while the
containment predicate answers false (it compares the untruncated
111194.92… against the radius), so the claimed equivalence fails. -/
theorem containment_truncation_mismatch :
    ¬ ((is_in_range proj0 0 0 0 1 111194 "haversine" = some true) ↔
       (∃ dz : ℤ, get_distance_from_ship proj0 0 0 0 1 "haversine" = some dz ∧
         (dz : ℚ) ≤ 111194)) := by
  obtain ⟨hlow, hhigh⟩ := haversine_equator_bounds
  have hd0 : 0 ≤ haversine_distance 0 0 0 1 := haversine_nonneg 0 0 0 1
  have hfloor : pyInt (haversine_distance 0 0 0 1) = 111194 := by
    rw [pyInt, if_pos hd0, Int.floor_eq_iff]
    constructor
    · push_cast
      linarith
    · push_cast
      linarith
  intro h
  have htrue := h.mpr ⟨111194, by
    rw [get_distance_from_ship, asset_distance_haversine, Option.map_some', hfloor],
    le_refl _⟩
  rw [is_in_range, asset_distance_haversine, Option.map_some'] at htrue
  rw [if_neg (by push_cast; linarith)] at htrue
  exact Bool.false_ne_true (Option.some.inj htrue)

/-- C2 amended: the containment predicate is true exactly when the
untruncated internal distance is within the radius; consequently whenever
it answers true the public truncated distance is also within the radius,
but the converse direction of the claimed law fails (see the
counterexample). -/
theorem in_range_iff_untruncated (proj : ℕ → ℚ → ℚ → ℝ × ℝ)
    (ship_lat ship_lon asset_lat asset_lon r : ℚ) (method : String) :
    (is_in_range proj ship_lat ship_lon asset_lat asset_lon r method = some true ↔
      ∃ d : ℝ, asset_distance proj ship_lat ship_lon asset_lat asset_lon method = some d ∧
        d ≤ (r : ℝ)) ∧
    (is_in_range proj ship_lat ship_lon asset_lat asset_lon r method = some true →
      ∃ dz : ℤ,
        get_distance_from_ship proj ship_lat ship_lon asset_lat asset_lon method = some dz ∧
        (dz : ℚ) ≤ r) := by
  cases hda : asset_distance proj ship_lat ship_lon asset_lat asset_lon method with
  | none =>
    constructor
    · rw [is_in_range, hda]
      simp
    · rw [is_in_range, hda]
      simp
  | some d =>
    have hiff : is_in_range proj ship_lat ship_lon asset_lat asset_lon r method = some true ↔
        d ≤ (r : ℝ) := by
      rw [is_in_range, hda, Option.map_some']
      constructor
      · intro h
        by_contra hc
        rw [if_neg hc] at h
        exact Bool.false_ne_true (Option.some.inj h)
      · intro h
        rw [if_pos h]
    constructor
    · rw [hiff]
      constructor
      · intro h
        exact ⟨d, rfl, h⟩
      · rintro ⟨d', hd', hle⟩
        obtain rfl : d = d' := Option.some.inj hd'
        exact hle
    · intro h
      have hle := hiff.mp h
      have h0 := asset_distance_nonneg proj ship_lat ship_lon asset_lat asset_lon method d hda
      refine ⟨pyInt d, by rw [get_distance_from_ship, hda, Option.map_some'], ?_⟩
      have hps := pyInt_le_self d h0
      have hcast : (pyInt d : ℝ) ≤ ((r : ℚ) : ℝ) := le_trans hps hle
      exact_mod_cast hcast

/-- Witness for C2's amended statement, applied at coincident points and
radius 0, where the containment hypothesis is discharged concretely. -/
theorem in_range_iff_untruncated_witness :
    ∃ dz : ℤ, get_distance_from_ship proj0 0 0 0 0 "haversine" = some dz ∧ (dz : ℚ) ≤ 0 :=
  (in_range_iff_untruncated proj0 0 0 0 0 0 "haversine").2 (by
    rw [is_in_range, asset_distance_haversine, Option.map_some', haversine_self,
      if_pos (by norm_num)])

/-- C6 counterexample: out-of-range latitude 91 and negative radius −5 are
accepted silently — every operation returns an ordinary result instead of
signalling an error. -/
theorem invalid_input_returns_result :
    get_distance_from_ship proj0 91 0 91 0 "haversine" = some 0 ∧
    get_bearing_from_ship 91 0 91 0 = 0 ∧
    is_in_range proj0 91 0 91 0 (-5) "haversine" = some false := by
  refine ⟨?_, bearing_self 91 0, ?_⟩
  · rw [get_distance_from_ship, asset_distance_haversine, Option.map_some',
      haversine_self, pyInt_zero]
  · rw [is_in_range, asset_distance_haversine, Option.map_some', haversine_self,
      if_neg (by norm_num)]

/-- C6 amended: the operations perform no input validation at all — for
every input, however far outside the documented coordinate and radius
ranges, the three known methods return a value and never signal an error
(the bearing is total by its type). -/
theorem no_validation_never_errors (proj : ℕ → ℚ → ℚ → ℝ × ℝ)
    (ship_lat ship_lon asset_lat asset_lon r : ℚ) :
    (get_distance_from_ship proj ship_lat ship_lon asset_lat asset_lon "haversine").isSome ∧
    (get_distance_from_ship proj ship_lat ship_lon asset_lat asset_lon "euclidian").isSome ∧
    (get_distance_from_ship proj ship_lat ship_lon asset_lat asset_lon "manhattan").isSome ∧
    (is_in_range proj ship_lat ship_lon asset_lat asset_lon r "haversine").isSome ∧
    (is_in_range proj ship_lat ship_lon asset_lat asset_lon r "euclidian").isSome ∧
    (is_in_range proj ship_lat ship_lon asset_lat asset_lon r "manhattan").isSome := by
  obtain ⟨z, hz⟩ := set_projection_total ship_lon
  have he : euclidian_distance proj ship_lat ship_lon asset_lat asset_lon =
      some (Real.sqrt (((proj z asset_lon asset_lat).1 - (proj z ship_lon ship_lat).1) ^ 2 +
        ((proj z asset_lon asset_lat).2 - (proj z ship_lon ship_lat).2) ^ 2)) := by
    rw [euclidian_distance, manhattan_parts, hz, Option.map_some', Option.map_some']
  have hm : manhattan_distance proj ship_lat ship_lon asset_lat asset_lon =
      some (|(proj z asset_lon asset_lat).1 - (proj z ship_lon ship_lat).1| +
        |(proj z asset_lon asset_lat).2 - (proj z ship_lon ship_lat).2|) := by
    rw [manhattan_distance, manhattan_parts, hz, Option.map_some', Option.map_some']
  refine ⟨?_, ?_, ?_, ?_, ?_, ?_⟩
  · rw [get_distance_from_ship, asset_distance_haversine, Option.map_some']
    rfl
  · rw [get_distance_from_ship, asset_distance_euclidian, he, Option.map_some']
    rfl
  · rw [get_distance_from_ship, asset_distance_manhattan, hm, Option.map_some']
    rfl
  · rw [is_in_range, asset_distance_haversine, Option.map_some']
    rfl
  · rw [is_in_range, asset_distance_euclidian, he, Option.map_some']
    rfl
  · rw [is_in_range, asset_distance_manhattan, hm, Option.map_some']
    rfl

/-- C7 counterexample: for the distinct valid points (45, −130) and
(0, −40) the two bearings are 90 and 315, which do not differ by 180
modulo 360. -/
theorem bearing_reciprocal_fails :
    get_bearing_from_ship 45 (-130) 0 (-40) = 90 ∧
    get_bearing_from_ship 0 (-40) 45 (-130) = 315 ∧
    ¬ ((get_bearing_from_ship 45 (-130) 0 (-40) -
        get_bearing_from_ship 0 (-40) 45 (-130)) % 360 = 180) := by
  have hpi := Real.pi_pos
  have hb1 : get_bearing_from_ship 45 (-130) 0 (-40) = 90 := by
    rw [get_bearing_eval]
    norm_num
    rw [show (90 : ℝ) * π / 180 = π / 2 from by ring,
      show (45 : ℝ) * π / 180 = π / 4 from by ring,
      Real.sin_pi_div_two, Real.cos_pi_div_two, mul_zero, neg_zero,
      atan2_pos_zero 1 one_pos,
      show π / 2 * 180 / π = (90 : ℝ) from by
        rw [div_eq_iff (ne_of_gt hpi)]; ring,
      pymod_small 90 (by norm_num) (by norm_num)]
    have h90 := pyInt_intCast 90
    push_cast at h90
    exact h90
  have hb2 : get_bearing_from_ship 0 (-40) 45 (-130) = 315 := by
    rw [get_bearing_eval]
    norm_num
    rw [show (-(90 * π) : ℝ) / 180 = -(π / 2) from by ring,
      show (45 : ℝ) * π / 180 = π / 4 from by ring,
      Real.sin_neg, Real.sin_pi_div_two, Real.sin_pi_div_four, Real.cos_pi_div_four]
    have hs2 : (0 : ℝ) < Real.sqrt 2 / 2 := by positivity
    rw [atan2, if_pos hs2, neg_one_mul, neg_div, div_self (ne_of_gt hs2),
      Real.arctan_neg, Real.arctan_one,
      show -(π / 4) * 180 / π = (-45 : ℝ) from by
        rw [div_eq_iff (ne_of_gt hpi)]; ring,
      pymod_neg_small (-45) (by norm_num) (by norm_num),
      show (-45 : ℝ) + 360 = ((315 : ℤ) : ℝ) from by norm_num, pyInt_intCast]
  refine ⟨hb1, hb2, ?_⟩
  rw [hb1, hb2]
  decide

/-- C7 amended: the reciprocal-bearing law does hold for distinct points
on a common meridian (less than 180° of latitude apart): the two bearings
are exactly 0 and 180, hence differ by 180 modulo 360. For general
distinct points the law fails, as the counterexample shows. -/
theorem bearing_reciprocal_same_meridian (lat1 lat2 lon : ℚ)
    (h1 : lat1 < lat2) (h2 : lat2 - lat1 < 180) :
    get_bearing_from_ship lat1 lon lat2 lon = 0 ∧
    get_bearing_from_ship lat2 lon lat1 lon = 180 ∧
    (get_bearing_from_ship lat2 lon lat1 lon -
      get_bearing_from_ship lat1 lon lat2 lon) % 360 = 180 := by
  have hpi := Real.pi_pos
  have hd0 : (0 : ℝ) < (lat2 : ℝ) - (lat1 : ℝ) := by
    rw [sub_pos]
    exact_mod_cast h1
  have hd1 : ((lat2 : ℝ) - (lat1 : ℝ)) < 180 := by
    have : ((lat2 - lat1 : ℚ) : ℝ) < ((180 : ℚ) : ℝ) := by exact_mod_cast h2
    push_cast at this
    linarith
  have hsin : 0 < Real.sin (((lat2 : ℝ) - (lat1 : ℝ)) * π / 180) := by
    apply Real.sin_pos_of_pos_of_lt_pi
    · positivity
    · nlinarith [mul_pos (sub_pos.mpr hd1) hpi]
  have hx : Real.cos ((lat1 : ℝ) * π / 180) * Real.sin ((lat2 : ℝ) * π / 180) -
      Real.sin ((lat1 : ℝ) * π / 180) * Real.cos ((lat2 : ℝ) * π / 180) =
      Real.sin (((lat2 : ℝ) - (lat1 : ℝ)) * π / 180) := by
    rw [show ((lat2 : ℝ) - (lat1 : ℝ)) * π / 180 =
      (lat2 : ℝ) * π / 180 - (lat1 : ℝ) * π / 180 from by ring, Real.sin_sub]
    ring
  have hxrev : Real.cos ((lat2 : ℝ) * π / 180) * Real.sin ((lat1 : ℝ) * π / 180) -
      Real.sin ((lat2 : ℝ) * π / 180) * Real.cos ((lat1 : ℝ) * π / 180) =
      -Real.sin (((lat2 : ℝ) - (lat1 : ℝ)) * π / 180) := by
    rw [show ((lat2 : ℝ) - (lat1 : ℝ)) * π / 180 =
      (lat2 : ℝ) * π / 180 - (lat1 : ℝ) * π / 180 from by ring, Real.sin_sub]
    ring
  have hfwd : get_bearing_from_ship lat1 lon lat2 lon = 0 := by
    rw [get_bearing_eval]
    simp only [sub_self, zero_mul, zero_div, Real.sin_zero, Real.cos_zero, mul_one]
    rw [hx, atan2_zero_of_pos _ hsin]
    simp only [zero_mul, zero_div]
    rw [pymod_zero, pyInt_zero]
  have hrev : get_bearing_from_ship lat2 lon lat1 lon = 180 := by
    rw [get_bearing_eval]
    simp only [sub_self, zero_mul, zero_div, Real.sin_zero, Real.cos_zero, mul_one]
    rw [hxrev, atan2_zero_of_neg _ (by linarith)]
    rw [show π * 180 / π = ((180 : ℤ) : ℝ) from by push_cast; field_simp]
    rw [pymod_small _ (by norm_num) (by norm_num), pyInt_intCast]
  refine ⟨hfwd, hrev, ?_⟩
  rw [hfwd, hrev]
  decide

/-- Witness for C7's amended statement on the meridian −124, latitudes 0
and 45. -/
theorem bearing_reciprocal_same_meridian_witness :
    get_bearing_from_ship 0 (-124) 45 (-124) = 0 ∧
    get_bearing_from_ship 45 (-124) 0 (-124) = 180 ∧
    (get_bearing_from_ship 45 (-124) 0 (-124) -
      get_bearing_from_ship 0 (-124) 45 (-124)) % 360 = 180 :=
  bearing_reciprocal_same_meridian 0 45 (-124) (by norm_num) (by norm_num)

/-- Evaluation of `_is_in_range` for the haversine method. -/
theorem is_in_range_haversine (proj : ℕ → ℚ → ℚ → ℝ × ℝ)
    (ship_lat ship_lon asset_lat asset_lon r : ℚ) :
    is_in_range proj ship_lat ship_lon asset_lat asset_lon r "haversine" =
      some (if haversine_distance ship_lat ship_lon asset_lat asset_lon ≤ (r : ℝ)
        then true else false) := by
  rw [is_in_range, asset_distance_haversine, Option.map_some']

/-- C3 (code bug): with two consecutive offline assets at the ship's
position, the remove-while-iterating loop skips the second one, so the
online-only listing retains an offline asset and the nearby filter
returns it. -/
theorem offline_filter_bug :
    get_nearby_assets_metadata proj0
      [⟨0, 0, "offline", "A1"⟩, ⟨0, 0, "offline", "A2"⟩] 0 0 100 "haversine" true =
      some (some [⟨0, 0, "offline", "A2"⟩]) ∧
    strContains "offline" (Asset.deploy_status ⟨0, 0, "offline", "A2"⟩) = true := by
  constructor
  · have hall : get_all_assets_metadata
        [⟨0, 0, "offline", "A1"⟩, ⟨0, 0, "offline", "A2"⟩] true =
        [⟨0, 0, "offline", "A2"⟩] := by
      rw [get_all_assets_metadata, if_pos rfl,
        pyRemoveLoop_hit _ _ ⟨0, 0, "offline", "A1"⟩ rfl (by decide),
        show ([⟨0, 0, "offline", "A1"⟩, ⟨0, 0, "offline", "A2"⟩] : List Asset).erase
          ⟨0, 0, "offline", "A1"⟩ = [⟨0, 0, "offline", "A2"⟩] from by decide]
      exact pyRemoveLoop_oob _ _ rfl
    have hloop : nearbyLoop proj0 0 0 100 "haversine" [⟨0, 0, "offline", "A2"⟩] =
        some [⟨0, 0, "offline", "A2"⟩] := by
      simp only [nearbyLoop, is_in_range_haversine, haversine_self]
      norm_num
    simp only [get_nearby_assets_metadata, hall, hloop]
    simp
  · decide

/-- C4 (code bug): with no asset inside the watch circle — an empty
provider list, or a single asset 111 km away with radius 100 m — the
source returns the Python value `None`, not an empty list. -/
theorem nearby_no_match_returns_none :
    get_nearby_assets_metadata proj0 [] 0 0 100 "haversine" true = some none ∧
    get_nearby_assets_metadata proj0 [⟨0, 1, "online", "B1"⟩] 0 0 100 "haversine" false =
      some none := by
  constructor
  · have hall : get_all_assets_metadata [] true = [] := by
      rw [get_all_assets_metadata, if_pos rfl]
      exact pyRemoveLoop_oob [] 0 rfl
    simp only [get_nearby_assets_metadata, hall, nearbyLoop]
    simp
  · have hall : get_all_assets_metadata [⟨0, 1, "online", "B1"⟩] false =
        [⟨0, 1, "online", "B1"⟩] := by
      rw [get_all_assets_metadata, if_neg (by decide)]
    have hfar : is_in_range proj0 0 0 0 1 100 "haversine" = some false := by
      rw [is_in_range_haversine, if_neg (by
        push_cast
        obtain ⟨hlow, _⟩ := haversine_equator_bounds
        intro hcon
        linarith)]
    simp only [get_nearby_assets_metadata, hall, nearbyLoop, hfar]
    simp

end NVS
